import Mathlib

/-!
Shallow embedding of the ts-relayer Link subsystem (src/lib/link.ts) and the
ics20 bootstrap command (src/binary/ibc-setup/commands/ics20.ts), together
with proofs about the embedded operations.

Pure data and control flow are translated directly from the TypeScript
source.  Operations of collaborators whose code is not present under src/
(endpoint.ts, ibcclient.ts, utils.ts and the chain query surface) are
modelled from the specification; each such definition carries a doc comment
starting with "Modelled from the spec:".  Effects on chains are made
explicit: every embedded operation that touches a chain returns, besides its
value, the successor state and a trace of the operations it performed
(transaction broadcasts and block waits).
-/

/-- Side selector, link.ts line 30: type Side = A | B. -/
inductive Side where
  | A : Side
  | B : Side
deriving DecidableEq, Repr

/-- link.ts lines 32 to 38: flip the side selector. -/
def otherSide (side : Side) : Side :=
  if side = Side.A then Side.B else Side.A

/-- IBC height, codec client.ts: revision number and revision height. -/
structure Height where
  revisionNumber : Nat
  revisionHeight : Nat
deriving DecidableEq, Repr

/-- IBC packet, codec channel.ts, restricted to the fields link.ts reads. -/
structure Packet where
  sequence : Nat
  sourcePort : String
  sourceChannel : String
  destinationPort : String
  destinationChannel : String
deriving DecidableEq, Repr

/-- endpoint.ts: a packet together with the source height it was committed at. -/
structure PacketWithMetadata where
  packet : Packet
  height : Nat
deriving DecidableEq, Repr

/-- endpoint.ts: an acknowledgment payload, its original packet, and the
height of the ack write event. -/
structure AckWithMetadata where
  acknowledgement : List Nat
  originalPacket : Packet
  height : Nat
deriving DecidableEq, Repr

/-- Endpoint, endpoint.ts: a signing client plus client and connection ids.
The client payload type is a parameter since different models refine it
differently. -/
structure Endpoint (γ : Type) where
  client : γ
  clientID : String
  connectionID : String

/-- Link, link.ts lines 61 to 64: a pair of endpoints. -/
structure Link (γ : Type) where
  endA : Endpoint γ
  endB : Endpoint γ

/-- link.ts lines 637 to 640. -/
structure EndpointPair (γ : Type) where
  src : Endpoint γ
  dest : Endpoint γ

/-- link.ts lines 616 to 628: view the two endpoints as a source and a
destination, selected by a Side. -/
def Link.getEnds {γ : Type} (l : Link γ) (src : Side) : EndpointPair γ :=
  if src = Side.A then
    { src := l.endA, dest := l.endB }
  else
    { src := l.endB, dest := l.endA }

/-- Relayed-height cursor, link.ts lines 42 to 47.  The first field keeps the
misspelling of the source (packetHeighA). -/
structure RelayedHeights where
  packetHeighA : Option Nat
  packetHeightB : Option Nat
  ackHeightA : Option Nat
  ackHeightB : Option Nat
deriving DecidableEq, Repr

/-- A JavaScript number restricted to the values that height arithmetic in
link.ts can produce: a natural number, or negative infinity, which is the
value of Math.max of an empty list and is preserved by adding 1. -/
inductive JsNum where
  | negInf : JsNum
  | fin : Nat → JsNum
deriving DecidableEq, Repr

/-- The comparison knownHeight >= minHeight of link.ts line 331, where the
right side may be negative infinity. -/
def jsGe (k : Nat) : JsNum → Bool
  | JsNum.negInf => true
  | JsNum.fin v => v ≤ k

/-- The comparison curHeight < minHeight of link.ts line 336. -/
def jsLt (k : Nat) : JsNum → Bool
  | JsNum.negInf => false
  | JsNum.fin v => k < v

/-- Adding one to a JavaScript number: negative infinity plus one is again
negative infinity. -/
def jsAdd1 : JsNum → JsNum
  | JsNum.negInf => JsNum.negInf
  | JsNum.fin v => JsNum.fin (v + 1)

/-- Math.max spread over a list of naturals: negative infinity on the empty
list, otherwise the maximum element. -/
def jsMax : List Nat → JsNum
  | [] => JsNum.negInf
  | h :: t => JsNum.fin (t.foldl Nat.max h)

/-- link.ts lines 573 and 602: the client height needed to prove commitments
of the given heights, Math.max of the heights plus one. -/
def neededHeight (heights : List Nat) : JsNum :=
  jsAdd1 (jsMax heights)

/-- Observable chain operations performed by the embedded Link methods.
All constructors except waitOneBlock are transaction broadcasts. -/
inductive Op where
  | waitOneBlock (on_ : Side)
  | updateClientTx (on_ : Side)
  | receivePacketsTx (on_ : Side) (packets : List Packet) (proofHeight : Nat)
  | acknowledgePacketsTx (on_ : Side) (count : Nat) (proofHeight : Nat)
  | createClientTx (on_ : Side) (tracking : Side) (unbondingPeriod : Nat) (trustingPeriod : Nat)
  | connOpenInitTx (on_ : Side) (connectionId : String)
  | connOpenTryTx (on_ : Side) (connectionId : String)
  | connOpenAckTx (on_ : Side) (connectionId : String)
  | connOpenConfirmTx (on_ : Side)
deriving DecidableEq, Repr

/-- Whether an operation is a transaction broadcast (everything except a
block wait). -/
def Op.isTx : Op → Bool
  | Op.waitOneBlock _ => false
  | _ => true

namespace Relay

/-- Observable state of one chain: its latest height (tip), how far beyond
the guaranteed single block a wait advances it (slack), the packets it has
sent and the acks it has written (each tagged with its commit height), and
the packet and ack identifiers it has already consumed. -/
structure ChainState where
  revisionNumber : Nat
  tip : Nat
  slack : Nat
  sentPackets : List PacketWithMetadata
  writtenAcks : List AckWithMetadata
  receivedIds : List (String × String × Nat)
  consumedAcks : List (String × String × Nat)
deriving DecidableEq, Repr

/-- Joint state of the two chains of a Link plus the latest height each
light client knows of the chain it tracks: clientOnA lives on chain A and
tracks B, clientOnB lives on chain B and tracks A. -/
structure LinkState where
  chainA : ChainState
  chainB : ChainState
  clientOnA : Option Height
  clientOnB : Option Height
deriving DecidableEq, Repr

def chainOf (st : LinkState) : Side → ChainState
  | Side.A => st.chainA
  | Side.B => st.chainB

def setChain (st : LinkState) : Side → ChainState → LinkState
  | Side.A, c => { st with chainA := c }
  | Side.B, c => { st with chainB := c }

/-- The light client on the destination side tracking the given source: for
source A this is the client living on B. -/
def destClient (st : LinkState) : Side → Option Height
  | Side.A => st.clientOnB
  | Side.B => st.clientOnA

def setDestClient (st : LinkState) : Side → Option Height → LinkState
  | Side.A, h => { st with clientOnB := h }
  | Side.B, h => { st with clientOnA := h }

/-- Modelled from the spec: waitOneBlock (section 4.1, ibcclient.ts not
under src/) returns once the chain height has advanced at least once; the
slack field holds the extra advance beyond the guaranteed single block. -/
def waitOneBlock (c : ChainState) : ChainState :=
  { c with tip := c.tip + 1 + c.slack }

structure UpdateResult where
  height : Height
  state : LinkState
  trace : List Op
deriving DecidableEq, Repr

/-- Modelled from the spec: doUpdateClient (ibcclient.ts, not under src/)
fetches the latest header from the source chain, submits it to the
destination in an UpdateClient transaction, and returns the submitted
height, which the destination now knows (spec section 4.5, updateClient). -/
def doUpdateClient (st : LinkState) (source : Side) : UpdateResult :=
  let srcChain := chainOf st source
  let h : Height := { revisionNumber := srcChain.revisionNumber, revisionHeight := srcChain.tip }
  { height := h,
    state := setDestClient st source (some h),
    trace := [Op.updateClientTx (otherSide source)] }

/-- link.ts lines 269 to 274: updateClient delegates to doUpdateClient of
the destination endpoint with the source client. -/
def updateClient (st : LinkState) (sender : Side) : UpdateResult :=
  doUpdateClient st sender

/-- link.ts lines 335 to 339: the fallthrough of updateClientToHeight once
the known height was found insufficient: wait one source block if the
source tip is below minHeight, then update the client. -/
def updateClientToHeightStep2 (st : LinkState) (source : Side) (minHeight : JsNum) : UpdateResult :=
  let curHeight := (chainOf st source).tip
  if jsLt curHeight minHeight then
    let r := updateClient (setChain st source (waitOneBlock (chainOf st source))) source
    { r with trace := Op.waitOneBlock source :: r.trace }
  else
    updateClient st source

/-- link.ts lines 320 to 340: if the destination already knows the source at
minHeight or above (and its latest height is present), return that height
with no transaction; otherwise fall through to step 2. -/
def updateClientToHeight (st : LinkState) (source : Side) (minHeight : JsNum) : UpdateResult :=
  match destClient st source with
  | some latestHeight =>
    if jsGe latestHeight.revisionHeight minHeight then
      { height := latestHeight, state := st, trace := [] }
    else
      updateClientToHeightStep2 st source minHeight
  | none => updateClientToHeightStep2 st source minHeight

structure ReceiveResult where
  ackEvents : List (List Nat × Packet)
  height : Nat
  state : LinkState
  trace : List Op
deriving DecidableEq, Repr

/-- Modelled from the spec: receivePackets (section 4.1, ibcclient.ts not
under src/) broadcasts one MsgRecvPacket transaction on the destination
carrying all packets and proofs; the destination marks the packets
received, writes one acknowledgment per packet, and returns the transaction
logs (here the parsed ack events) and the inclusion height. -/
def receivePackets (st : LinkState) (dst : Side) (packets : List Packet) (proofHeight : Nat) : ReceiveResult :=
  let c := chainOf st dst
  let incHeight := c.tip + 1
  let ackEvents := packets.map (fun p => ([1], p))
  let c2 := { c with
    tip := incHeight,
    receivedIds :=
      c.receivedIds ++ packets.map (fun p => (p.destinationPort, p.destinationChannel, p.sequence)),
    writtenAcks :=
      c.writtenAcks ++ ackEvents.map (fun e =>
        { acknowledgement := e.1, originalPacket := e.2, height := incHeight }) }
  { ackEvents, height := incHeight, state := setChain st dst c2,
    trace := [Op.receivePacketsTx dst packets proofHeight] }

structure AckSubmitResult where
  height : Nat
  state : LinkState
  trace : List Op
deriving DecidableEq, Repr

/-- Modelled from the spec: acknowledgePackets (section 4.1, ibcclient.ts
not under src/) broadcasts one MsgAcknowledgement transaction on the
destination; the destination consumes the acknowledged packets and returns
the inclusion height. -/
def acknowledgePackets (st : LinkState) (dst : Side) (acks : List AckWithMetadata) (proofHeight : Nat) : AckSubmitResult :=
  let c := chainOf st dst
  let incHeight := c.tip + 1
  let c2 := { c with
    tip := incHeight,
    consumedAcks :=
      c.consumedAcks ++ acks.map (fun a =>
        (a.originalPacket.sourcePort, a.originalPacket.sourceChannel, a.originalPacket.sequence)) }
  { height := incHeight, state := setChain st dst c2,
    trace := [Op.acknowledgePacketsTx dst acks.length proofHeight] }

structure RelayPacketsResult where
  acks : List AckWithMetadata
  state : LinkState
  trace : List Op
  usedMinHeight : JsNum
deriving DecidableEq, Repr

/-- link.ts lines 565 to 587: compute neededHeight from the packet heights,
update the destination client to it, fetch packet proofs (a pure query in
this model), broadcast one receivePackets transaction on the destination,
and tag the acks parsed from its logs with the inclusion height.  The
usedMinHeight field records the neededHeight value that was passed to
updateClientToHeight. -/
def relayPackets (st : LinkState) (source : Side) (packets : List PacketWithMetadata) : RelayPacketsResult :=
  let needed := neededHeight (packets.map PacketWithMetadata.height)
  let u := updateClientToHeight st source needed
  let submit := packets.map PacketWithMetadata.packet
  let r := receivePackets u.state (otherSide source) submit u.height.revisionHeight
  { acks := r.ackEvents.map (fun e =>
      { acknowledgement := e.1, originalPacket := e.2, height := r.height }),
    state := r.state,
    trace := u.trace ++ r.trace,
    usedMinHeight := needed }

structure RelayAcksResult where
  height : Nat
  state : LinkState
  trace : List Op
  usedMinHeight : JsNum
deriving DecidableEq, Repr

/-- link.ts lines 594 to 614: compute neededHeight from the ack heights,
update the destination client to it, fetch ack proofs (a pure query in this
model), broadcast one acknowledgePackets transaction on the destination and
return its inclusion height. -/
def relayAcks (st : LinkState) (source : Side) (acks : List AckWithMetadata) : RelayAcksResult :=
  let needed := neededHeight (acks.map AckWithMetadata.height)
  let u := updateClientToHeight st source needed
  let a := acknowledgePackets u.state (otherSide source) acks u.height.revisionHeight
  { height := a.height, state := a.state, trace := u.trace ++ a.trace, usedMinHeight := needed }

/-- endpoint.ts QueryOpts: an optional minimum height. -/
structure QueryOpts where
  minHeight : Option Nat
deriving DecidableEq, Repr

/-- Modelled from the spec: Endpoint.querySentPackets (endpoint.ts, not
under src/) returns the packets sent from this chain since the minimum
height, each tagged with its commit height (spec sections 4.1 and 4.2). -/
def querySentPackets (c : ChainState) (opts : QueryOpts) : List PacketWithMetadata :=
  c.sentPackets.filter (fun p => decide (opts.minHeight.getD 0 ≤ p.height))

/-- Modelled from the spec: Endpoint.queryWrittenAcks (endpoint.ts, not
under src/) returns the acks written on this chain since the minimum
height, each tagged with the height of the ack write event. -/
def queryWrittenAcks (c : ChainState) (opts : QueryOpts) : List AckWithMetadata :=
  c.writtenAcks.filter (fun a => decide (opts.minHeight.getD 0 ≤ a.height))

/-- link.ts line 631. -/
def idDelim : String := ":"

/-- link.ts lines 632 to 633: grouping key for packet receive. -/
def packetId (packet : Packet) : String :=
  packet.destinationPort ++ idDelim ++ packet.destinationChannel

/-- link.ts lines 634 to 635: grouping key for acks. -/
def ackId (packet : Packet) : String :=
  packet.sourcePort ++ idDelim ++ packet.sourceChannel

/-- One step of the reduce of link.ts lines 522 to 531: append a sequence
under its key; an existing key keeps its position, as the JavaScript object
spread does. -/
def assocAppend : List (String × List Nat) → String → Nat → List (String × List Nat)
  | [], key, v => [(key, [v])]
  | (k, vs) :: rest, key, v =>
    if k = key then (k, vs ++ [v]) :: rest else (k, vs) :: assocAppend rest key v

/-- Splitting a character list at every occurrence of the separator, as the
JavaScript String.split does for a one character separator; structural
recursion, so it evaluates by reduction. -/
def splitCharList (sep : Char) : List Char → List (List Char)
  | [] => [[]]
  | c :: rest =>
    let r := splitCharList sep rest
    if c = sep then [] :: r
    else
      match r with
      | [] => [[c]]
      | g :: gs => (c :: g) :: gs

/-- destination.split(idDelim) of link.ts line 535: split a grouping key at
the one character delimiter of idDelim. -/
def splitId (s : String) : List String :=
  (splitCharList ':' s.data).map String.mk

/-- link.ts lines 509 to 551: group the packets by their id key, split each
key back into port and channel, ask the destination which sequences of each
group are unreceived, and return the per-key unreceived sets (as lists). -/
def filterUnreceived (packets : List Packet)
    (unreceivedQuery : String → String → List Nat → List Nat)
    (idFunc : Packet → String) : List (String × List Nat) :=
  if packets.isEmpty then []
  else
    let packetsPerDestination :=
      packets.foldl (fun sorted packet => assocAppend sorted (idFunc packet) packet.sequence) []
    packetsPerDestination.map (fun kv =>
      let parts := splitId kv.1
      (kv.1, unreceivedQuery (parts.getD 0 "") (parts.getD 1 "") kv.2))

/-- Modelled from the spec: the chain query unreceivedPackets (section 4.1)
returns those of the given sequences that the chain has not yet received on
the given port and channel. -/
def unreceivedPacketsQuery (c : ChainState) (port channel : String) (sequences : List Nat) : List Nat :=
  sequences.filter (fun s => decide (¬ (port, channel, s) ∈ c.receivedIds))

/-- Modelled from the spec: the chain query unreceivedAcks (section 4.1)
returns those of the given sequences whose acks have not yet been consumed
on the given port and channel. -/
def unreceivedAcksQuery (c : ChainState) (port channel : String) (sequences : List Nat) : List Nat :=
  sequences.filter (fun s => decide (¬ (port, channel, s) ∈ c.consumedAcks))

/-- link.ts lines 453 to 479: packets sent on the source since the minimum
height that the destination has not yet received. -/
def getPendingPackets (st : LinkState) (source : Side) (opts : QueryOpts) : List PacketWithMetadata :=
  let src := chainOf st source
  let dst := chainOf st (otherSide source)
  let allPackets := querySentPackets src opts
  let toFilter := allPackets.map PacketWithMetadata.packet
  let unreceived := filterUnreceived toFilter (unreceivedPacketsQuery dst) packetId
  allPackets.filter (fun pm =>
    match List.lookup (packetId pm.packet) unreceived with
    | some seqs => seqs.contains pm.packet.sequence
    | none => false)

/-- link.ts lines 481 to 507: acks written on the source since the minimum
height that the destination has not yet consumed. -/
def getPendingAcks (st : LinkState) (source : Side) (opts : QueryOpts) : List AckWithMetadata :=
  let src := chainOf st source
  let dst := chainOf st (otherSide source)
  let allAcks := queryWrittenAcks src opts
  let toFilter := allAcks.map AckWithMetadata.originalPacket
  let unreceived := filterUnreceived toFilter (unreceivedAcksQuery dst) ackId
  allAcks.filter (fun am =>
    match List.lookup (ackId am.originalPacket) unreceived with
    | some seqs => seqs.contains am.originalPacket.sequence
    | none => false)

structure RelayRunResult where
  cursor : RelayedHeights
  state : LinkState
  trace : List Op
deriving DecidableEq, Repr

/-- link.ts lines 427 to 451: one pass of the bidirectional pipeline.  Fetch
pending packets of both sides from the input state, relay them in both
directions, fetch pending acks, relay them, and return the relayFrom cursor
unchanged (the source returns relayFrom at line 450, below the comment TODO
return newer value from above queries). -/
def checkAndRelayPacketsAndAcks (st : LinkState) (relayFrom : RelayedHeights) : RelayRunResult :=
  let packetsA := getPendingPackets st Side.A { minHeight := relayFrom.packetHeighA }
  let packetsB := getPendingPackets st Side.B { minHeight := relayFrom.packetHeightB }
  let rA := relayPackets st Side.A packetsA
  let rB := relayPackets rA.state Side.B packetsB
  let acksA := getPendingAcks rB.state Side.A { minHeight := relayFrom.ackHeightA }
  let acksB := getPendingAcks rB.state Side.B { minHeight := relayFrom.ackHeightB }
  let aA := relayAcks rB.state Side.A acksA
  let aB := relayAcks aA.state Side.B acksB
  { cursor := relayFrom, state := aB.state,
    trace := rA.trace ++ rB.trace ++ aA.trace ++ aB.trace }

end Relay

namespace Handshake

/-- link.ts line 52: the hard coded unbonding period in seconds. -/
def genesisUnbondingTime : Nat := 1814400

/-- A chain node as used by the connection bootstrap: its chain id and the
counters from which fresh client and connection ids are minted. -/
structure IbcNode where
  chainId : String
  nextClientSeq : Nat
  nextConnSeq : Nat
deriving DecidableEq, Repr

def clientIdFor (n : Nat) : String := "07-tendermint-" ++ toString n

def connectionIdFor (n : Nat) : String := "connection-" ++ toString n

/-- The value produced by buildCreateClientArgs: the initial client state
and consensus state, of which only the periods and the tracked chain matter
here. -/
structure CreateClientArgs where
  trackedChainId : String
  unbondingPeriod : Nat
  trustingPeriod : Nat
deriving DecidableEq, Repr

/-- Modelled from the spec: buildCreateClientArgs (ibcclient.ts, not under
src/) queries the remote chain and packages an initial client state and
consensus state with the given unbonding and trusting periods (spec section
4.3); it broadcasts nothing. -/
def buildCreateClientArgs (remote : IbcNode) (unbondingPeriod trustingPeriod : Nat) : CreateClientArgs :=
  { trackedChainId := remote.chainId, unbondingPeriod, trustingPeriod }

structure CreateClientResult where
  clientId : String
  node : IbcNode
deriving DecidableEq, Repr

/-- Modelled from the spec: createTendermintClient (section 4.1) broadcasts
a CreateClient transaction submitting the given initial states and mints
the next client id. -/
def createTendermintClient (node : IbcNode) (_args : CreateClientArgs) : CreateClientResult :=
  { clientId := clientIdFor node.nextClientSeq,
    node := { node with nextClientSeq := node.nextClientSeq + 1 } }

structure CreateClientsResult where
  clientIdA : String
  clientIdB : String
  nodeA : IbcNode
  nodeB : IbcNode
  trace : List Op
deriving DecidableEq, Repr

/-- link.ts lines 647 to 666: create the client on B tracking A, then the
client on A tracking B, each with buildCreateClientArgs of the remote node,
genesisUnbondingTime and 5000. -/
def createClients (nodeA nodeB : IbcNode) : CreateClientsResult :=
  let args := buildCreateClientArgs nodeA genesisUnbondingTime 5000
  let rB := createTendermintClient nodeB args
  let args2 := buildCreateClientArgs nodeB genesisUnbondingTime 5000
  let rA := createTendermintClient nodeA args2
  { clientIdA := rA.clientId, clientIdB := rB.clientId,
    nodeA := rA.node, nodeB := rB.node,
    trace := [Op.createClientTx Side.B Side.A args.unbondingPeriod args.trustingPeriod,
              Op.createClientTx Side.A Side.B args2.unbondingPeriod args2.trustingPeriod] }

structure ConnOpenResult where
  connectionId : String
  node : IbcNode
deriving DecidableEq, Repr

/-- Modelled from the spec: connOpenInit (section 4.1) broadcasts a
ConnOpenInit transaction for the given client pair and mints the next
connection id. -/
def connOpenInit (node : IbcNode) (_clientIdSelf _clientIdRemote : String) : ConnOpenResult :=
  { connectionId := connectionIdFor node.nextConnSeq,
    node := { node with nextConnSeq := node.nextConnSeq + 1 } }

/-- Modelled from the spec: a connection handshake proof as produced by
prepareConnectionHandshake. -/
structure ConnectionHandshakeProof where
  clientIdSrc : String
  clientIdDest : String
  connIdSrc : String
deriving DecidableEq, Repr

/-- Modelled from the spec: prepareConnectionHandshake (ibcclient.ts, not
under src/) builds a handshake proof by querying the source chain at a
consensus height known to the destination (spec section 4.3 step 2 and
scenario 1); it broadcasts no transaction. -/
def prepareConnectionHandshake (_src _dest : IbcNode)
    (clientIdSrc clientIdDest connIdSrc : String) : ConnectionHandshakeProof :=
  { clientIdSrc, clientIdDest, connIdSrc }

/-- Modelled from the spec: connOpenTry (section 4.1) broadcasts a
ConnOpenTry transaction with the given proof and mints the next connection
id. -/
def connOpenTry (node : IbcNode) (_clientId : String) (_proof : ConnectionHandshakeProof) : ConnOpenResult :=
  { connectionId := connectionIdFor node.nextConnSeq,
    node := { node with nextConnSeq := node.nextConnSeq + 1 } }

/-- The identifiers held by a freshly constructed Link. -/
structure LinkIds where
  clientIdA : String
  clientIdB : String
  connectionIdA : String
  connectionIdB : String
deriving DecidableEq, Repr

structure NewConnectionsResult where
  link : LinkIds
  trace : List Op
deriving DecidableEq, Repr

/-- link.ts lines 204 to 250: create both clients, then run the four step
connection handshake: connOpenInit on A, a handshake proof from A then
connOpenTry on B, a handshake proof from B then connOpenAck on A, a
handshake proof from A then connOpenConfirm on B; return a Link holding the
two minted connection ids. -/
def createWithNewConnections (nodeA nodeB : IbcNode) : NewConnectionsResult :=
  let cc := createClients nodeA nodeB
  let init := connOpenInit cc.nodeA cc.clientIdA cc.clientIdB
  let proof := prepareConnectionHandshake init.node cc.nodeB cc.clientIdA cc.clientIdB init.connectionId
  let tryR := connOpenTry cc.nodeB cc.clientIdB proof
  let _proofAck := prepareConnectionHandshake tryR.node init.node cc.clientIdB cc.clientIdA tryR.connectionId
  let _proofConfirm := prepareConnectionHandshake init.node tryR.node cc.clientIdA cc.clientIdB init.connectionId
  { link := { clientIdA := cc.clientIdA, clientIdB := cc.clientIdB,
              connectionIdA := init.connectionId, connectionIdB := tryR.connectionId },
    trace := cc.trace ++
      [Op.connOpenInitTx Side.A init.connectionId,
       Op.connOpenTryTx Side.B tryR.connectionId,
       Op.connOpenAckTx Side.A init.connectionId,
       Op.connOpenConfirmTx Side.B] }

end Handshake

namespace Existing

/-- codec connection.ts: the counterparty of a connection end. -/
structure Counterparty where
  clientId : String
  connectionId : String
deriving DecidableEq, Repr

/-- codec connection.ts: the connection state enum. -/
inductive State where
  | STATE_UNINITIALIZED_UNSPECIFIED
  | STATE_INIT
  | STATE_TRYOPEN
  | STATE_OPEN
  | UNRECOGNIZED
deriving DecidableEq, Repr

/-- codec connection.ts: a connection end restricted to the fields link.ts
reads. -/
structure ConnectionEnd where
  clientId : String
  counterparty : Option Counterparty
  state : State
deriving DecidableEq, Repr

/-- Tendermint client state restricted to the fields link.ts reads. -/
structure TmClientState where
  chainId : String
  latestHeight : Option Height
deriving DecidableEq, Repr

structure MerkleRoot where
  hash : List Nat
deriving DecidableEq, Repr

/-- Tendermint consensus state restricted to the fields link.ts reads. -/
structure TmConsensusState where
  nextValidatorsHash : List Nat
  root : Option MerkleRoot
deriving DecidableEq, Repr

/-- A block header restricted to the fields link.ts reads. -/
structure Header where
  height : Nat
  appHash : List Nat
  nextValidatorsHash : List Nat
deriving DecidableEq, Repr

/-- The query surface of an IbcClient that createWithExistingConnections
uses (spec section 4.1); every operation is a query, none broadcasts a
transaction. -/
structure IbcClient where
  connection : String → Option ConnectionEnd
  chainId : String
  stateTm : String → TmClientState
  consensusStateTm : String → Option Height → TmConsensusState
  header : Nat → Header

/-- Modelled from the spec: toIntHeight (utils.ts, not under src/) projects
an optional Height to its revision height number, zero when absent. -/
def toIntHeight (h : Option Height) : Nat :=
  (h.map Height.revisionHeight).getD 0

/-- link.ts lines 166 to 195: fetch the consensus state stored on the proof
side for the given client and height together with the actual header of the
counterparty at that height; fail when the nextValidatorsHash fields differ,
when the consensus root is missing, or when the root hash differs from the
counterparty appHash (arrayContentEquals is byte list equality). -/
def assertHeadersMatchConsensusState (l : Link IbcClient) (proofSide : Side)
    (clientId : String) (height : Option Height) : Except String Unit :=
  let ends := l.getEnds proofSide
  let consensusState := ends.src.client.consensusStateTm clientId height
  let header := ends.dest.client.header (toIntHeight height)
  if consensusState.nextValidatorsHash ≠ header.nextValidatorsHash then
    Except.error "NextValidatorHash does not match ConsensusState."
  else
    match consensusState.root with
    | none => Except.error "ConsensusState.root.hash missing."
    | some root =>
      if root.hash ≠ header.appHash then
        Except.error "AppHash does not match ConsensusState."
      else
        Except.ok ()

/-- link.ts lines 73 to 157: query both connections, require both present
with counterparties and in state OPEN, cross check the client ids, check
both chain ids against the remote client states, build the two endpoints
and the link, and require both header versus consensus state assertions to
pass before returning the link.  The whole function only queries; it
broadcasts no transaction. -/
def createWithExistingConnections (nodeA nodeB : IbcClient) (connA connB : String) :
    Except String (Link IbcClient) :=
  match nodeA.connection connA with
  | none => Except.error ("Connection not found for ID " ++ connA)
  | some connectionA =>
    match nodeB.connection connB with
    | none => Except.error ("Connection not found for ID " ++ connB)
    | some connectionB =>
      match connectionA.counterparty with
      | none => Except.error ("Counterparty not found for connection with ID " ++ connA)
      | some counterpartyA =>
        match connectionB.counterparty with
        | none => Except.error ("Counterparty not found for connection with ID " ++ connB)
        | some counterpartyB =>
          if connectionA.state ≠ State.STATE_OPEN then
            Except.error "Connection A must be in state open"
          else if connectionB.state ≠ State.STATE_OPEN then
            Except.error "Connection B must be in state open"
          else if connectionA.clientId ≠ counterpartyB.clientId then
            Except.error "Client ID for connection A does not match counterparty client ID for connection B"
          else if connectionB.clientId ≠ counterpartyA.clientId then
            Except.error "Client ID for connection B does not match counterparty client ID for connection A"
          else
            let clientIdA := connectionA.clientId
            let clientIdB := connectionB.clientId
            let clientStateA := nodeA.stateTm clientIdA
            let clientStateB := nodeB.stateTm clientIdB
            if nodeA.chainId ≠ clientStateB.chainId then
              Except.error "Chain ID A does not match remote chain ID"
            else if nodeB.chainId ≠ clientStateA.chainId then
              Except.error "Chain ID B does not match remote chain ID"
            else
              let endA : Endpoint IbcClient :=
                { client := nodeA, clientID := clientIdA, connectionID := connA }
              let endB : Endpoint IbcClient :=
                { client := nodeB, clientID := clientIdB, connectionID := connB }
              let link : Link IbcClient := { endA, endB }
              match assertHeadersMatchConsensusState link Side.A clientIdA clientStateA.latestHeight with
              | Except.error e => Except.error e
              | Except.ok _ =>
                match assertHeadersMatchConsensusState link Side.B clientIdB clientStateB.latestHeight with
                | Except.error e => Except.error e
                | Except.ok _ => Except.ok link

end Existing

namespace Ics20

/-- The two optional connection fields of the app file (AppConfig in
binary/types.ts), restricted to what resolveConnections reads. -/
structure AppConfig where
  srcConnection : Option String
  destConnection : Option String
deriving DecidableEq, Repr

/-- JavaScript truthiness of an optional string: an absent value and the
empty string are falsy. -/
def truthy : Option String → Bool
  | none => false
  | some s => decide (s ≠ "")

/-- ics20.ts lines 20 to 23: either both connection ids or null. -/
abbrev Connections := Option (String × String)

/-- ics20.ts lines 48 to 72: fail when exactly one of the two connection
fields is set; return the pair when both are set; return null when neither
is. -/
def resolveConnections (app : AppConfig) : Except String Connections :=
  if !truthy app.srcConnection && truthy app.destConnection then
    Except.error "You have defined destConnection but no srcConnection. Both srcConnection and destConnection must be present."
  else if truthy app.srcConnection && !truthy app.destConnection then
    Except.error "You have defined srcConnection but no destConnection. Both srcConnection and destConnection must be present."
  else if truthy app.srcConnection && truthy app.destConnection then
    Except.ok (some (app.srcConnection.getD "", app.destConnection.getD ""))
  else
    Except.ok none

end Ics20

/-- Field wise order on optional cursor heights: an absent input field is
below anything, a present one must not regress, and a present field must not
become absent. -/
def heightLe : Option Nat → Option Nat → Prop
  | none, _ => True
  | some a, some b => a ≤ b
  | some _, none => False

namespace Relay

/-- A sample packet used in concrete evaluations. -/
def pkt1 : Packet :=
  { sequence := 1, sourcePort := "transfer", sourceChannel := "channel-0",
    destinationPort := "transfer", destinationChannel := "channel-0" }

/-- A chain at height 10 with no packet or ack history. -/
def emptyChain : ChainState :=
  { revisionNumber := 0, tip := 10, slack := 0,
    sentPackets := [], writtenAcks := [], receivedIds := [], consumedAcks := [] }

/-- One pending packet committed at height 5 on chain A; both clients know
their counterparty at height 10. -/
def stC1 : LinkState :=
  { chainA := { emptyChain with sentPackets := [{ packet := pkt1, height := 5 }] },
    chainB := emptyChain,
    clientOnA := some ⟨0, 10⟩,
    clientOnB := some ⟨0, 10⟩ }

/-- The cursor with all four fields absent. -/
def emptyCursor : RelayedHeights := ⟨none, none, none, none⟩

/-- Chain A at height 5 and no client known on either side. -/
def stC3 : LinkState :=
  { chainA := { emptyChain with tip := 5 },
    chainB := emptyChain,
    clientOnA := none,
    clientOnB := none }

/-- Two packets committed at heights 3 and 5. -/
def psW : List PacketWithMetadata :=
  [{ packet := pkt1, height := 3 }, { packet := pkt1, height := 5 }]

/-- One ack written at height 7. -/
def asW : List AckWithMetadata :=
  [{ acknowledgement := [1], originalPacket := pkt1, height := 7 }]

end Relay

namespace Existing

/-- A header whose appHash and nextValidatorsHash agree with goodConsensus. -/
def goodHeader : Header :=
  { height := 10, appHash := [7], nextValidatorsHash := [3] }

/-- A consensus state agreeing with goodHeader. -/
def goodConsensus : TmConsensusState :=
  { nextValidatorsHash := [3], root := some { hash := [7] } }

/-- An OPEN connection whose client and counterparty client are both the
first tendermint client. -/
def goodConn : ConnectionEnd :=
  { clientId := "07-tendermint-0",
    counterparty := some { clientId := "07-tendermint-0", connectionId := "connection-0" },
    state := State.STATE_OPEN }

/-- Chain A node: holds goodConn under connection-0, tracks chain-b. -/
def nodeGoodA : IbcClient :=
  { connection := fun c => if c = "connection-0" then some goodConn else none,
    chainId := "chain-a",
    stateTm := fun _ => { chainId := "chain-b", latestHeight := some ⟨1, 10⟩ },
    consensusStateTm := fun _ _ => goodConsensus,
    header := fun _ => goodHeader }

/-- Chain B node: holds goodConn under connection-0, tracks chain-a. -/
def nodeGoodB : IbcClient :=
  { connection := fun c => if c = "connection-0" then some goodConn else none,
    chainId := "chain-b",
    stateTm := fun _ => { chainId := "chain-a", latestHeight := some ⟨1, 10⟩ },
    consensusStateTm := fun _ _ => goodConsensus,
    header := fun _ => goodHeader }

/-- The link that createWithExistingConnections builds from the two good
nodes. -/
def linkGood : Link IbcClient :=
  { endA := { client := nodeGoodA, clientID := "07-tendermint-0", connectionID := "connection-0" },
    endB := { client := nodeGoodB, clientID := "07-tendermint-0", connectionID := "connection-0" } }

/-- Chain A node whose stored consensus state has a different next
validators hash than the actual counterparty header. -/
def nodeBadA : IbcClient :=
  { nodeGoodA with
    consensusStateTm := fun _ _ => { nextValidatorsHash := [9], root := some { hash := [7] } } }

/-- A link whose A side consensus state disagrees with the B side header. -/
def linkBad : Link IbcClient :=
  { endA := { client := nodeBadA, clientID := "07-tendermint-0", connectionID := "connection-0" },
    endB := { client := nodeGoodB, clientID := "07-tendermint-0", connectionID := "connection-0" } }

end Existing

namespace Ics20

/-- App file with both connection fields set. -/
def appBoth : AppConfig :=
  { srcConnection := some "connection-0", destConnection := some "connection-1" }

/-- App file with neither connection field set. -/
def appNone : AppConfig :=
  { srcConnection := none, destConnection := none }

end Ics20

/-- C10: otherSide is an involution and getEnds of the flipped side is the
swap of getEnds: its src is the other ends dest and its dest the other ends
src. -/
theorem otherSide_getEnds_involution :
    ∀ (s : Side), otherSide (otherSide s) = s ∧
      ∀ (γ : Type) (l : Link γ),
        (l.getEnds (otherSide s)).src = (l.getEnds s).dest ∧
        (l.getEnds (otherSide s)).dest = (l.getEnds s).src := by
  intro s
  cases s <;> exact ⟨rfl, fun γ l => ⟨rfl, rfl⟩⟩

theorem heightLe_refl (a : Option Nat) : heightLe a a := by
  cases a <;> simp [heightLe]

theorem checkAndRelay_cursor_eq (st : Relay.LinkState) (c : RelayedHeights) :
    (Relay.checkAndRelayPacketsAndAcks st c).cursor = c := rfl

/-- C8: every field of the cursor returned by checkAndRelayPacketsAndAcks is
at least the corresponding field of the input cursor (the source returns the
input cursor unchanged, so each field is equal). -/
theorem checkAndRelay_cursor_monotone :
    ∀ (st : Relay.LinkState) (c : RelayedHeights),
      heightLe c.packetHeighA (Relay.checkAndRelayPacketsAndAcks st c).cursor.packetHeighA ∧
      heightLe c.packetHeightB (Relay.checkAndRelayPacketsAndAcks st c).cursor.packetHeightB ∧
      heightLe c.ackHeightA (Relay.checkAndRelayPacketsAndAcks st c).cursor.ackHeightA ∧
      heightLe c.ackHeightB (Relay.checkAndRelayPacketsAndAcks st c).cursor.ackHeightB := by
  intro st c
  rw [checkAndRelay_cursor_eq]
  exact ⟨heightLe_refl _, heightLe_refl _, heightLe_refl _, heightLe_refl _⟩

/-- C1: at a state with one pending packet committed at height 5 on side A
and an all absent input cursor, checkAndRelayPacketsAndAcks processes that
packet yet returns the input cursor unchanged, instead of advancing the
packet height field of side A to 5 as the claim requires. -/
theorem checkAndRelay_cursor_not_advanced :
    (Relay.checkAndRelayPacketsAndAcks Relay.stC1 Relay.emptyCursor).cursor = Relay.emptyCursor ∧
    (Relay.getPendingPackets Relay.stC1 Side.A { minHeight := none }).map
      PacketWithMetadata.height = [5] := by
  exact ⟨rfl, by decide⟩

/-- C2 counterexample: with the destination client known, relayPackets of
the empty packet list still performs a transaction broadcast (the empty
receivePackets transaction), refuting the zero broadcast claim. -/
theorem relayPackets_empty_broadcasts_ce :
    (Relay.relayPackets Relay.stC1 Side.A []).trace.filter Op.isTx ≠ [] := by
  decide

/-- C2 amended: relayPackets of the empty list returns no acks, and its
trace is exactly one empty receivePackets broadcast on the destination,
preceded by an UpdateClient broadcast only when the destination client has
no known latest height. -/
theorem relayPackets_empty_behavior :
    ∀ (st : Relay.LinkState) (s : Side),
      (Relay.relayPackets st s []).acks = [] ∧
      (match Relay.destClient st s with
       | some k =>
           (Relay.relayPackets st s []).trace =
             [Op.receivePacketsTx (otherSide s) [] k.revisionHeight]
       | none =>
           (Relay.relayPackets st s []).trace =
             [Op.updateClientTx (otherSide s),
              Op.receivePacketsTx (otherSide s) [] (Relay.chainOf st s).tip]) := by
  intro st s
  refine ⟨rfl, ?_⟩
  cases h : Relay.destClient st s with
  | some k =>
      simp [Relay.relayPackets, Relay.updateClientToHeight, h, jsGe, neededHeight, jsMax,
        jsAdd1, Relay.receivePackets]
  | none =>
      simp [Relay.relayPackets, Relay.updateClientToHeight, Relay.updateClientToHeightStep2,
        Relay.updateClient, Relay.doUpdateClient, h, jsLt, neededHeight, jsMax, jsAdd1,
        Relay.receivePackets]

theorem chainOf_setChain (st : Relay.LinkState) (s : Side) (c : Relay.ChainState) :
    Relay.chainOf (Relay.setChain st s c) s = c := by
  cases s <;> rfl

theorem updateClientToHeightStep2_height (st : Relay.LinkState) (s : Side) (h : Nat)
    (hh : h ≤ (Relay.chainOf st s).tip + 1) :
    h ≤ (Relay.updateClientToHeightStep2 st s (JsNum.fin h)).height.revisionHeight := by
  unfold Relay.updateClientToHeightStep2
  dsimp only
  split
  · simp only [Relay.updateClient, Relay.doUpdateClient, chainOf_setChain, Relay.waitOneBlock]
    omega
  · rename_i hge
    simp only [jsLt, decide_eq_true_eq] at hge
    simp only [Relay.updateClient, Relay.doUpdateClient]
    omega

theorem updateClientToHeightStep2_trace (st : Relay.LinkState) (s : Side) (h : Nat)
    (hlt : (Relay.chainOf st s).tip < h) :
    (Relay.updateClientToHeightStep2 st s (JsNum.fin h)).trace =
      [Op.waitOneBlock s, Op.updateClientTx (otherSide s)] := by
  unfold Relay.updateClientToHeightStep2
  dsimp only
  split
  · simp [Relay.updateClient, Relay.doUpdateClient]
  · rename_i hge
    simp only [jsLt, decide_eq_true_eq] at hge
    omega

/-- C3 counterexample: with no client known on the destination, chain A at
height 5 and minHeight 100, updateClientToHeight waits a single block and
submits height 6, which is below the requested 100; the claimed post
condition fails. -/
theorem updateClientToHeight_post_ce :
    (Relay.updateClientToHeight Relay.stC3 Side.A (JsNum.fin 100)).height.revisionHeight < 100 := by
  decide

/-- C3 amended: the returned height is at least h whenever h is at most the
source tip plus one (which holds at every call site, where h is a commit
height plus one); if the destination already knows the source at a height of
at least h, that height is returned with no operation at all; and when the
early return does not apply and the source tip is below h, the call waits
one source block and then updates. -/
theorem updateClientToHeight_spec :
    ∀ (st : Relay.LinkState) (s : Side) (h : Nat),
      (h ≤ (Relay.chainOf st s).tip + 1 →
        h ≤ (Relay.updateClientToHeight st s (JsNum.fin h)).height.revisionHeight) ∧
      (∀ k, Relay.destClient st s = some k → h ≤ k.revisionHeight →
        Relay.updateClientToHeight st s (JsNum.fin h) =
          { height := k, state := st, trace := [] }) ∧
      ((match Relay.destClient st s with
        | some k => k.revisionHeight < h
        | none => True) →
       (Relay.chainOf st s).tip < h →
        (Relay.updateClientToHeight st s (JsNum.fin h)).trace =
          [Op.waitOneBlock s, Op.updateClientTx (otherSide s)]) := by
  intro st s h
  refine ⟨?_, ?_, ?_⟩
  · intro hh
    unfold Relay.updateClientToHeight
    cases hk : Relay.destClient st s with
    | some k =>
      simp only [hk]
      split
      · rename_i hge
        simp only [jsGe, decide_eq_true_eq] at hge
        simpa using hge
      · exact updateClientToHeightStep2_height st s h hh
    | none =>
      simp only [hk]
      exact updateClientToHeightStep2_height st s h hh
  · intro k hk hle
    unfold Relay.updateClientToHeight
    simp only [hk]
    split
    · rfl
    · rename_i hge
      exfalso
      simp only [jsGe, decide_eq_true_eq] at hge
      omega
  · cases hk : Relay.destClient st s with
    | some k =>
      intro hmatch hlt
      have hm : k.revisionHeight < h := hmatch
      unfold Relay.updateClientToHeight
      simp only [hk]
      split
      · rename_i hge
        exfalso
        simp only [jsGe, decide_eq_true_eq] at hge
        omega
      · exact updateClientToHeightStep2_trace st s h hlt
    | none =>
      intro _ hlt
      unfold Relay.updateClientToHeight
      simp only [hk]
      exact updateClientToHeightStep2_trace st s h hlt

/-- Witness for the amended C3 theorem: the early return at a state whose
destination client knows height 10, the post condition there, and the wait
clause at a state with no known client and tip 5 below the requested 6. -/
theorem updateClientToHeight_spec_witness :
    10 ≤ (Relay.updateClientToHeight Relay.stC1 Side.A (JsNum.fin 10)).height.revisionHeight ∧
    Relay.updateClientToHeight Relay.stC1 Side.A (JsNum.fin 10) =
      { height := ⟨0, 10⟩, state := Relay.stC1, trace := [] } ∧
    (Relay.updateClientToHeight Relay.stC3 Side.A (JsNum.fin 6)).trace =
      [Op.waitOneBlock Side.A, Op.updateClientTx Side.B] := by
  refine ⟨(updateClientToHeight_spec Relay.stC1 Side.A 10).1 (by decide),
          (updateClientToHeight_spec Relay.stC1 Side.A 10).2.1 ⟨0, 10⟩ (by decide) (by decide),
          (updateClientToHeight_spec Relay.stC3 Side.A 6).2.2 (by trivial) (by decide)⟩

theorem base_le_foldl_max (t : List Nat) : ∀ (h : Nat), h ≤ t.foldl Nat.max h := by
  induction t with
  | nil => intro h; simp
  | cons a t ih =>
    intro h
    simp only [List.foldl_cons]
    exact le_trans (Nat.le_max_left h a) (ih (Nat.max h a))

theorem mem_le_foldl_max (t : List Nat) : ∀ (h x : Nat), x ∈ t → x ≤ t.foldl Nat.max h := by
  induction t with
  | nil => intro h x hx; cases hx
  | cons a t ih =>
    intro h x hx
    simp only [List.foldl_cons]
    rcases List.mem_cons.mp hx with rfl | hx2
    · exact le_trans (Nat.le_max_right h x) (base_le_foldl_max t (Nat.max h x))
    · exact ih (Nat.max h a) x hx2

theorem foldl_max_mem (t : List Nat) : ∀ (h : Nat), t.foldl Nat.max h ∈ h :: t := by
  induction t with
  | nil => intro h; simp
  | cons a t ih =>
    intro h
    simp only [List.foldl_cons]
    rcases List.mem_cons.mp (ih (Nat.max h a)) with h1 | h2
    · rw [h1]
      rcases Nat.le_total h a with hle | hle
      · have hx : Nat.max h a = a := Nat.max_eq_right hle
        rw [hx]
        exact List.mem_cons_of_mem _ (List.mem_cons_self _ _)
      · have hx : Nat.max h a = h := Nat.max_eq_left hle
        rw [hx]
        exact List.mem_cons_self _ _
    · exact List.mem_cons_of_mem _ (List.mem_cons_of_mem _ h2)

theorem foldl_max_zero_mem (l : List Nat) (hl : l ≠ []) : l.foldl Nat.max 0 ∈ l := by
  cases l with
  | nil => exact absurd rfl hl
  | cons h t =>
    have hx : Nat.max 0 h = h := Nat.max_eq_right (Nat.zero_le h)
    rw [List.foldl_cons, hx]
    exact foldl_max_mem t h

theorem lt_foldl_max_zero_succ (l : List Nat) (x : Nat) (hx : x ∈ l) :
    x < l.foldl Nat.max 0 + 1 := by
  have := mem_le_foldl_max l 0 x hx
  omega

theorem neededHeight_eq_foldl (l : List Nat) (hl : l ≠ []) :
    neededHeight l = JsNum.fin (l.foldl Nat.max 0 + 1) := by
  cases l with
  | nil => exact absurd rfl hl
  | cons h t =>
    simp [neededHeight, jsMax, jsAdd1, List.foldl_cons, Nat.zero_max]

/-- C4: for a non-empty packet (resp. ack) list, the neededHeight that
relayPackets (resp. relayAcks) passes to updateClientToHeight equals the
maximum commit height of the inputs plus one (the foldl is shown to be a
member, hence the maximum), and is strictly greater than every input commit
height. -/
theorem neededHeight_dominates :
    ∀ (st : Relay.LinkState) (s : Side) (ps : List PacketWithMetadata)
      (acks : List AckWithMetadata),
      (ps ≠ [] →
        ((ps.map PacketWithMetadata.height).foldl Nat.max 0) ∈ ps.map PacketWithMetadata.height ∧
        (Relay.relayPackets st s ps).usedMinHeight =
          JsNum.fin (((ps.map PacketWithMetadata.height).foldl Nat.max 0) + 1) ∧
        ∀ p ∈ ps, p.height < ((ps.map PacketWithMetadata.height).foldl Nat.max 0) + 1) ∧
      (acks ≠ [] →
        ((acks.map AckWithMetadata.height).foldl Nat.max 0) ∈ acks.map AckWithMetadata.height ∧
        (Relay.relayAcks st s acks).usedMinHeight =
          JsNum.fin (((acks.map AckWithMetadata.height).foldl Nat.max 0) + 1) ∧
        ∀ a ∈ acks, a.height < ((acks.map AckWithMetadata.height).foldl Nat.max 0) + 1) := by
  intro st s ps acks
  constructor
  · intro hps
    have hl : ps.map PacketWithMetadata.height ≠ [] := by
      intro hmap
      exact hps (List.map_eq_nil_iff.mp hmap)
    refine ⟨foldl_max_zero_mem _ hl, ?_, ?_⟩
    · show neededHeight (ps.map PacketWithMetadata.height) = _
      exact neededHeight_eq_foldl _ hl
    · intro p hp
      exact lt_foldl_max_zero_succ _ _ (List.mem_map_of_mem _ hp)
  · intro hacks
    have hl : acks.map AckWithMetadata.height ≠ [] := by
      intro hmap
      exact hacks (List.map_eq_nil_iff.mp hmap)
    refine ⟨foldl_max_zero_mem _ hl, ?_, ?_⟩
    · show neededHeight (acks.map AckWithMetadata.height) = _
      exact neededHeight_eq_foldl _ hl
    · intro a ha
      exact lt_foldl_max_zero_succ _ _ (List.mem_map_of_mem _ ha)

/-- Witness for C4 at two packets of heights 3 and 5 and one ack of height
7. -/
theorem neededHeight_dominates_witness :
    (((Relay.psW.map PacketWithMetadata.height).foldl Nat.max 0) ∈
        Relay.psW.map PacketWithMetadata.height ∧
      (Relay.relayPackets Relay.stC1 Side.A Relay.psW).usedMinHeight =
        JsNum.fin (((Relay.psW.map PacketWithMetadata.height).foldl Nat.max 0) + 1) ∧
      ∀ p ∈ Relay.psW, p.height <
        ((Relay.psW.map PacketWithMetadata.height).foldl Nat.max 0) + 1) ∧
    (((Relay.asW.map AckWithMetadata.height).foldl Nat.max 0) ∈
        Relay.asW.map AckWithMetadata.height ∧
      (Relay.relayAcks Relay.stC1 Side.A Relay.asW).usedMinHeight =
        JsNum.fin (((Relay.asW.map AckWithMetadata.height).foldl Nat.max 0) + 1) ∧
      ∀ a ∈ Relay.asW, a.height <
        ((Relay.asW.map AckWithMetadata.height).foldl Nat.max 0) + 1) := by
  exact ⟨(neededHeight_dominates Relay.stC1 Side.A Relay.psW Relay.asW).1 (by decide),
         (neededHeight_dominates Relay.stC1 Side.A Relay.psW Relay.asW).2 (by decide)⟩

/-- C5: createWithNewConnections issues exactly the transaction sequence
CreateClient on B tracking A with periods 1814400 and 5000, CreateClient on
A tracking B with the same periods, ConnOpenInit on A, ConnOpenTry on B,
ConnOpenAck on A, ConnOpenConfirm on B, and the returned Link holds the two
freshly minted connection ids. -/
theorem createWithNewConnections_trace :
    ∀ (nodeA nodeB : Handshake.IbcNode),
      (Handshake.createWithNewConnections nodeA nodeB).trace =
        [Op.createClientTx Side.B Side.A 1814400 5000,
         Op.createClientTx Side.A Side.B 1814400 5000,
         Op.connOpenInitTx Side.A (Handshake.connectionIdFor nodeA.nextConnSeq),
         Op.connOpenTryTx Side.B (Handshake.connectionIdFor nodeB.nextConnSeq),
         Op.connOpenAckTx Side.A (Handshake.connectionIdFor nodeA.nextConnSeq),
         Op.connOpenConfirmTx Side.B] ∧
      (Handshake.createWithNewConnections nodeA nodeB).link.connectionIdA =
        Handshake.connectionIdFor nodeA.nextConnSeq ∧
      (Handshake.createWithNewConnections nodeA nodeB).link.connectionIdB =
        Handshake.connectionIdFor nodeB.nextConnSeq := by
  intro nodeA nodeB
  exact ⟨rfl, rfl, rfl⟩

/-- C9: resolveConnections fails exactly when one connection field is truthy
and the other is not; with both truthy it returns the pair, with neither it
returns null. -/
theorem resolveConnections_cases :
    ∀ (app : Ics20.AppConfig),
      ((∃ msg, Ics20.resolveConnections app = Except.error msg) ↔
        Ics20.truthy app.srcConnection ≠ Ics20.truthy app.destConnection) ∧
      (Ics20.truthy app.srcConnection = true → Ics20.truthy app.destConnection = true →
        Ics20.resolveConnections app =
          Except.ok (some (app.srcConnection.getD "", app.destConnection.getD ""))) ∧
      (Ics20.truthy app.srcConnection = false → Ics20.truthy app.destConnection = false →
        Ics20.resolveConnections app = Except.ok none) := by
  intro app
  cases hs : Ics20.truthy app.srcConnection <;> cases hd : Ics20.truthy app.destConnection <;>
    simp [Ics20.resolveConnections, hs, hd]

/-- Witness for C9: with both fields set the pair is returned, with neither
set null is returned. -/
theorem resolveConnections_cases_witness :
    Ics20.resolveConnections Ics20.appBoth =
      Except.ok (some ("connection-0", "connection-1")) ∧
    Ics20.resolveConnections Ics20.appNone = Except.ok none := by
  exact ⟨(resolveConnections_cases Ics20.appBoth).2.1 (by decide) (by decide),
         (resolveConnections_cases Ics20.appNone).2.2 (by decide) (by decide)⟩

theorem createWithExisting_ok_inv :
    ∀ (nodeA nodeB : Existing.IbcClient) (connA connB : String)
      (link : Link Existing.IbcClient),
      Existing.createWithExistingConnections nodeA nodeB connA connB = Except.ok link →
      ∃ (cA cB : Existing.ConnectionEnd) (cpA cpB : Existing.Counterparty),
        nodeA.connection connA = some cA ∧
        nodeB.connection connB = some cB ∧
        cA.counterparty = some cpA ∧
        cB.counterparty = some cpB ∧
        cA.state = Existing.State.STATE_OPEN ∧
        cB.state = Existing.State.STATE_OPEN ∧
        cA.clientId = cpB.clientId ∧
        cB.clientId = cpA.clientId ∧
        link = { endA := { client := nodeA, clientID := cA.clientId, connectionID := connA },
                 endB := { client := nodeB, clientID := cB.clientId, connectionID := connB } } ∧
        Existing.assertHeadersMatchConsensusState link Side.A cA.clientId
          (nodeA.stateTm cA.clientId).latestHeight = Except.ok () ∧
        Existing.assertHeadersMatchConsensusState link Side.B cB.clientId
          (nodeB.stateTm cB.clientId).latestHeight = Except.ok () := by
  intro nodeA nodeB connA connB link hok
  unfold Existing.createWithExistingConnections at hok
  cases hA : nodeA.connection connA with
  | none => rw [hA] at hok; simp at hok
  | some connectionA =>
  rw [hA] at hok
  dsimp only at hok
  cases hB : nodeB.connection connB with
  | none => rw [hB] at hok; simp at hok
  | some connectionB =>
  rw [hB] at hok
  dsimp only at hok
  cases hcA : connectionA.counterparty with
  | none => rw [hcA] at hok; simp at hok
  | some counterpartyA =>
  rw [hcA] at hok
  dsimp only at hok
  cases hcB : connectionB.counterparty with
  | none => rw [hcB] at hok; simp at hok
  | some counterpartyB =>
  rw [hcB] at hok
  dsimp only at hok
  split at hok
  · simp at hok
  rename_i hstA
  split at hok
  · simp at hok
  rename_i hstB
  split at hok
  · simp at hok
  rename_i hcliA
  split at hok
  · simp at hok
  rename_i hcliB
  split at hok
  · simp at hok
  rename_i hchA
  split at hok
  · simp at hok
  rename_i hchB
  split at hok
  · simp at hok
  rename_i uA heqA
  split at hok
  · simp at hok
  rename_i uB heqB
  simp only [Except.ok.injEq] at hok
  subst hok
  refine ⟨connectionA, connectionB, counterpartyA, counterpartyB, rfl, rfl, hcA, hcB,
    not_not.mp hstA, not_not.mp hstB, not_not.mp hcliA, not_not.mp hcliB, rfl, ?_, ?_⟩
  · exact heqA
  · exact heqB

/-- C6: any Link returned by createWithExistingConnections comes from two
existing connections with counterparties, both in state OPEN, whose client
ids cross match; the link carries exactly those client ids.  Contrapositive:
when any of these conditions fails the construction fails (and the function
performs no broadcast at all, its whole surface being queries). -/
theorem createWithExistingConnections_requires_open_crossmatch :
    ∀ (nodeA nodeB : Existing.IbcClient) (connA connB : String)
      (link : Link Existing.IbcClient),
      Existing.createWithExistingConnections nodeA nodeB connA connB = Except.ok link →
      ∃ (cA cB : Existing.ConnectionEnd) (cpA cpB : Existing.Counterparty),
        nodeA.connection connA = some cA ∧
        nodeB.connection connB = some cB ∧
        cA.counterparty = some cpA ∧
        cB.counterparty = some cpB ∧
        cA.state = Existing.State.STATE_OPEN ∧
        cB.state = Existing.State.STATE_OPEN ∧
        cA.clientId = cpB.clientId ∧
        cB.clientId = cpA.clientId ∧
        link.endA.clientID = cA.clientId ∧
        link.endB.clientID = cB.clientId := by
  intro nodeA nodeB connA connB link hok
  obtain ⟨cA, cB, cpA, cpB, h1, h2, h3, h4, h5, h6, h7, h8, hlink, -, -⟩ :=
    createWithExisting_ok_inv nodeA nodeB connA connB link hok
  subst hlink
  exact ⟨cA, cB, cpA, cpB, h1, h2, h3, h4, h5, h6, h7, h8, rfl, rfl⟩

/-- Witness for C6 at a pair of nodes with matching open connections. -/
theorem createWithExistingConnections_requires_witness :
    ∃ (cA cB : Existing.ConnectionEnd) (cpA cpB : Existing.Counterparty),
      Existing.nodeGoodA.connection "connection-0" = some cA ∧
      Existing.nodeGoodB.connection "connection-0" = some cB ∧
      cA.counterparty = some cpA ∧
      cB.counterparty = some cpB ∧
      cA.state = Existing.State.STATE_OPEN ∧
      cB.state = Existing.State.STATE_OPEN ∧
      cA.clientId = cpB.clientId ∧
      cB.clientId = cpA.clientId ∧
      Existing.linkGood.endA.clientID = cA.clientId ∧
      Existing.linkGood.endB.clientID = cB.clientId :=
  createWithExistingConnections_requires_open_crossmatch Existing.nodeGoodA Existing.nodeGoodB
    "connection-0" "connection-0" Existing.linkGood rfl

/-- C7: the header versus consensus state assertion fails whenever the next
validators hashes differ, the consensus root is missing, or the root hash
differs from the counterparty appHash; and any link that
createWithExistingConnections returns passed both assertions at the latest
client heights, so a mismatch prevents construction. -/
theorem assertHeadersMatchConsensusState_guards :
    (∀ (l : Link Existing.IbcClient) (side : Side) (clientId : String)
        (height : Option Height),
      (((l.getEnds side).src.client.consensusStateTm clientId height).nextValidatorsHash ≠
          ((l.getEnds side).dest.client.header (Existing.toIntHeight height)).nextValidatorsHash ∨
        ((l.getEnds side).src.client.consensusStateTm clientId height).root = none ∨
        (∃ r, ((l.getEnds side).src.client.consensusStateTm clientId height).root = some r ∧
          r.hash ≠ ((l.getEnds side).dest.client.header (Existing.toIntHeight height)).appHash)) →
      ∃ msg, Existing.assertHeadersMatchConsensusState l side clientId height =
        Except.error msg) ∧
    (∀ (nodeA nodeB : Existing.IbcClient) (connA connB : String)
        (link : Link Existing.IbcClient),
      Existing.createWithExistingConnections nodeA nodeB connA connB = Except.ok link →
      Existing.assertHeadersMatchConsensusState link Side.A link.endA.clientID
          (nodeA.stateTm link.endA.clientID).latestHeight = Except.ok () ∧
      Existing.assertHeadersMatchConsensusState link Side.B link.endB.clientID
          (nodeB.stateTm link.endB.clientID).latestHeight = Except.ok ()) := by
  constructor
  · intro l side clientId height hmis
    unfold Existing.assertHeadersMatchConsensusState
    dsimp only
    rcases hmis with hnv | hroot | ⟨r, hr, hhash⟩
    · exact ⟨_, by rw [if_pos hnv]⟩
    · split
      · exact ⟨_, rfl⟩
      · rw [hroot]
        exact ⟨_, rfl⟩
    · split
      · exact ⟨_, rfl⟩
      · rw [hr]
        dsimp only
        split
        · exact ⟨_, rfl⟩
        · rename_i hh
          exact absurd (not_not.mp hh) (fun he => hhash he)
  · intro nodeA nodeB connA connB link hok
    obtain ⟨cA, cB, cpA, cpB, h1, h2, h3, h4, h5, h6, h7, h8, hlink, hassertA, hassertB⟩ :=
      createWithExisting_ok_inv nodeA nodeB connA connB link hok
    subst hlink
    exact ⟨hassertA, hassertB⟩

/-- Witness for C7: a mismatching consensus state fails the assertion, and
the assertions pass on the good link built by the C6 witness data. -/
theorem assertHeadersMatchConsensusState_guards_witness :
    (∃ msg, Existing.assertHeadersMatchConsensusState Existing.linkBad Side.A
        "07-tendermint-0" (some ⟨1, 10⟩) = Except.error msg) ∧
    Existing.assertHeadersMatchConsensusState Existing.linkGood Side.A
        Existing.linkGood.endA.clientID
        (Existing.nodeGoodA.stateTm Existing.linkGood.endA.clientID).latestHeight =
      Except.ok () ∧
    Existing.assertHeadersMatchConsensusState Existing.linkGood Side.B
        Existing.linkGood.endB.clientID
        (Existing.nodeGoodB.stateTm Existing.linkGood.endB.clientID).latestHeight =
      Except.ok () := by
  refine ⟨assertHeadersMatchConsensusState_guards.1 Existing.linkBad Side.A "07-tendermint-0"
      (some ⟨1, 10⟩) (Or.inl (by decide)), ?_, ?_⟩
  · exact (assertHeadersMatchConsensusState_guards.2 Existing.nodeGoodA Existing.nodeGoodB
      "connection-0" "connection-0" Existing.linkGood rfl).1
  · exact (assertHeadersMatchConsensusState_guards.2 Existing.nodeGoodA Existing.nodeGoodB
      "connection-0" "connection-0" Existing.linkGood rfl).2
